import Mathlib

/-!
Verification of the Workday prism-python client core against its
natural-language specification.

The Python source (prism/prism.py and prism/commands/buckets_commands.py) is
shallowly embedded: Python dicts holding table schemas become the `Schema`
structure with `Option`-valued attributes (a `none` attribute models an absent
dict key), in-place mutation becomes explicit state passing (a function that
mutates its argument returns the post-state of the caller's object), HTTP
traffic is parameterized by a server oracle, unbounded `while True:` loops take
a fuel argument (`none` output = the loop did not finish within the fuel), and
a raised Python exception becomes `Except.error` carrying the exception text.
-/

set_option maxRecDepth 16000

namespace PrismPy

/-- Python substring containment over explicit character lists:
`sub in s` for strings, and `s.find(sub) != -1`. -/
def subListAt (sub : List Char) : List Char → Bool
  | [] => sub.isEmpty
  | c :: t => List.isPrefixOf sub (c :: t) || subListAt sub t

/-- Python `sub in s` / `s.find(sub) != -1` on strings. -/
def subStr (sub s : String) : Bool := subListAt sub.toList s.toList

/-- Python `name.replace(" ", "_")` (single-character pattern). -/
def pyCleanName (nm : String) : String :=
  String.mk (nm.toList.map (fun c => if c = ' ' then '_' else c))

/-- Python `s.startswith(pre)`. -/
def pyStartsWith (s pre : String) : Bool := List.isPrefixOf pre.toList s.toList

/-- Python `s.lower()`. -/
def pyLower (s : String) : String := String.mk (s.toList.map Char.toLower)

/-- One field dict of a table schema.  `name` is always present (every field
the code touches reads it); the remaining attributes are optional dict keys,
`none` meaning the key is absent. -/
structure Field where
  name : String
  id : Option String := none
  displayName : Option String := none
  fieldId : Option String := none
  required : Option Bool := none
  externalId : Option Bool := none
  ordinal : Option Nat := none
  useAsOperationKey : Option Bool := none
  ftype : Option String := none
deriving DecidableEq, Repr

/-- The parseOptions sub-dict attached to a bucket schema. -/
structure ParseOptions where
  fieldsDelimitedBy : String
  fieldsEnclosedBy : String
  headerLinesToIgnore : Nat
  charset : String
  fileType : String
deriving DecidableEq, Repr

/-- Default parse options built by table_to_bucket_schema when the table has
none (prism.py lines 193-199). -/
def defaultParseOptions : ParseOptions :=
  { fieldsDelimitedBy := ","
    fieldsEnclosedBy := "\""
    headerLinesToIgnore := 1
    charset := "Encoding=UTF-8"
    fileType := "Schema_File_Type=Delimited" }

/-- A schema dict (table schema or bucket schema).  Each optional attribute
models a dict key that may be absent; `otherKeys` models any further top-level
keys (only their presence matters: schema_fixup deletes them). -/
structure Schema where
  id : Option String := none
  name : Option String := none
  displayName : Option String := none
  description : Option String := none
  documentation : Option String := none
  enableForAnalysis : Option Bool := none
  tags : Option (List String) := none
  fields : Option (List Field) := none
  parseOptions : Option ParseOptions := none
  schemaVersion : Option String := none
  otherKeys : List String := []
deriving DecidableEq, Repr

/-- schema_fixup helper is_valid_string (prism.py lines 103-107): the key is
present, a string, and non-empty. -/
def isValidString : Option String → Bool
  | none => false
  | some s => s.length > 0

/-- The ordinal (re)assignment loop of schema_fixup (prism.py lines 128-130):
field at index i gets ordinal i+1; `n` is the number of fields already passed. -/
def assignOrdinalsFrom (n : Nat) : List Field → List Field
  | [] => []
  | f :: rest => { f with ordinal := some (n + 1) } :: assignOrdinalsFrom (n + 1) rest

/-- schema_fixup (prism.py lines 92-139).  The Python function mutates the
schema dict in place and returns a bool; here the pair gives the returned bool
and the post-state of the caller's dict (unchanged on every failure path,
which all return before the first mutation).  It removes fields whose name
starts with "WPA_", reassigns ordinals 1..N, and deletes every top-level key
outside the whitelist (modelled by rebuilding with only whitelisted keys:
parseOptions, schemaVersion and otherKeys are dropped). -/
def schema_fixup (schema : Schema) : Bool × Schema :=
  if ¬ isValidString schema.id then (false, schema)
  else
    match schema.fields with
    | none => (false, schema)
    | some fl =>
      let fl1 := fl.filter (fun fld => ! pyStartsWith fld.name "WPA_")
      let fl2 := assignOrdinalsFrom 0 fl1
      (true,
        { id := schema.id
          name := schema.name
          displayName := schema.displayName
          description := schema.description
          documentation := schema.documentation
          enableForAnalysis := schema.enableForAnalysis
          tags := schema.tags
          fields := some fl2 })

/-- The attribute-trim loop of table_to_bucket_schema (prism.py lines
185-188): delete id, displayName, fieldId, required, externalId from a field. -/
def trimFieldAttrs (f : Field) : Field :=
  { f with id := none, displayName := none, fieldId := none, required := none,
           externalId := none }

/-- The useAsOperationKey loop of table_to_bucket_schema (prism.py lines
178-182): reading fld["externalId"] raises KeyError when the key is absent;
`fld["externalId"] is True` yields the key value for bool-valued keys. -/
def opKeyAssign : List Field → Except String (List Field)
  | [] => .ok []
  | f :: rest =>
    match f.externalId with
    | none => .error "KeyError: externalId"
    | some b => (opKeyAssign rest).map (fun r => { f with useAsOperationKey := some b } :: r)

/-- table_to_bucket_schema (prism.py lines 142-204).  Returns `.ok none` when
the table has no fields key (the Python function returns None), `.error` when
the loop body raises KeyError, and otherwise `.ok (some (bucket, post))` with
the returned bucket schema and the post-state of the caller's table dict: the
filter `"WPA" not in x["name"]` and the per-field updates act on the caller's
own fields list (`fields[:] = ...`), so the post-state carries the same
transformed fields as the bucket schema. -/
def table_to_bucket_schema (table : Schema) : Except String (Option (Schema × Schema)) :=
  match table.fields with
  | none => .ok none
  | some fl =>
    let fl1 := fl.filter (fun x => ! subStr "WPA" x.name)
    (opKeyAssign fl1).map (fun fl2 =>
      let fl3 := fl2.map trimFieldAttrs
      let bucket : Schema :=
        { schemaVersion := some "Schema_Version=1.0"
          parseOptions := some (table.parseOptions.getD defaultParseOptions)
          fields := some fl3 }
      some (bucket, { table with fields := some fl3 }))

/-- Applying table_to_bucket_schema to its own bucket-schema output (the
second application of the transformation, propagating the first result). -/
def table_to_bucket_twice (t : Schema) : Except String (Option (Schema × Schema)) :=
  match table_to_bucket_schema t with
  | .ok (some (b, _)) => table_to_bucket_schema b
  | r => r

namespace Prism

/-- Post-state of the caller's schema dict after Prism.tables_post (prism.py
lines 574-601): the method runs schema_fixup on the caller's dict (mutating it
in place) and then only issues HTTP traffic, which does not touch the dict. -/
def tables_post_schema_post (schema : Schema) : Schema := (schema_fixup schema).2

/-- Post-state of the caller's schema dict after Prism.tables_put (prism.py
lines 603-642), which likewise runs schema_fixup on the caller's dict. -/
def tables_put_schema_post (schema : Schema) : Schema := (schema_fixup schema).2

/-- Prism.buckets_create (prism.py lines 803-922) restricted to the
caller-supplied-dict path (schema a dict, target_id and target_name None).
Returns the bucket-schema payload sent in the POST (none when creation is
abandoned early) together with the post-state of the caller's schema dict:
line 873 rejects a dict missing id or fields before any mutation, then
schema_fixup and table_to_bucket_schema mutate the dict in sequence. -/
def buckets_create_schema (schema : Schema) : Except String (Option Schema × Schema) :=
  if schema.id = none ∨ schema.fields = none then .ok (none, schema)
  else
    match schema_fixup schema with
    | (false, s1) => .ok (none, s1)
    | (true, s1) =>
      (table_to_bucket_schema s1).map (fun res =>
        match res with
        | none => (none, s1)
        | some (b, s2) => (some b, s2))

end Prism

/-- A Python url argument: None, a string, or a value of another type. -/
inductive PyUrl where
  | pyNone
  | pyStr (s : String)
  | pyOther
deriving DecidableEq, Repr

/-- A real requests.Response, reduced to the parts the client reads. -/
structure NetResp where
  status : Nat
  body : String
deriving DecidableEq, Repr

/-- The value bound to `response` inside the http verb methods: either a real
requests.Response object, or the plain dict literal built on the missing-URL
branch (prism.py lines 270-272 and analogues). -/
inductive RespVal where
  | obj (r : NetResp)
  | dict (status_code : Nat) (text : String)
deriving DecidableEq, Repr

/-- Python attribute access `response.status_code`: defined on a
requests.Response object, an AttributeError on a plain dict (dict entries are
subscripted, not attributes). -/
def respGetAttrStatus : RespVal → Except String Nat
  | .obj r => .ok r.status
  | .dict _ _ => .error "AttributeError: dict object has no attribute status_code"

/-- The guard `url is None or not isinstance(url, str) or len(url) == 0`. -/
def urlMissing : PyUrl → Bool
  | .pyNone => true
  | .pyStr s => s.length = 0
  | .pyOther => true

namespace Prism

/-- Prism.http_get (prism.py lines 255-291): on a missing URL `response` is
bound to a plain dict with status_code 600; otherwise the request is issued
(`net` is the network oracle).  Line 286 then evaluates
`response.status_code`, which only logs on a real response but raises
AttributeError on the dict. -/
def http_get (net : String → NetResp) (url : PyUrl) : Except String RespVal :=
  let response : RespVal :=
    match url with
    | .pyStr s => if s.length = 0 then .dict 600 "get: missing URL" else .obj (net s)
    | _ => .dict 600 "get: missing URL"
  (respGetAttrStatus response).map (fun _ => response)

/-- Prism.http_post (prism.py lines 293-320), same shape as http_get with the
status check `response.status_code > 299` at line 317. -/
def http_post (net : String → NetResp) (url : PyUrl) : Except String RespVal :=
  let response : RespVal :=
    match url with
    | .pyStr s => if s.length = 0 then .dict 600 "POST: missing URL" else .obj (net s)
    | _ => .dict 600 "POST: missing URL"
  (respGetAttrStatus response).map (fun _ => response)

/-- Prism.http_patch (prism.py lines 322-349). -/
def http_patch (net : String → NetResp) (url : PyUrl) : Except String RespVal :=
  let response : RespVal :=
    match url with
    | .pyStr s => if s.length = 0 then .dict 600 "PATCH: missing URL" else .obj (net s)
    | _ => .dict 600 "PATCH: missing URL"
  (respGetAttrStatus response).map (fun _ => response)

/-- Prism.http_put (prism.py lines 351-381). -/
def http_put (net : String → NetResp) (url : PyUrl) : Except String RespVal :=
  let response : RespVal :=
    match url with
    | .pyStr s => if s.length = 0 then .dict 600 "PUT: missing URL" else .obj (net s)
    | _ => .dict 600 "PUT: missing URL"
  (respGetAttrStatus response).map (fun _ => response)

/-- The cached credential: bearer_token together with bearer_token_timestamp
(prism.py lines 245-249; the two are always set and cleared together). -/
structure AuthCred where
  token : String
  ts : Nat
deriving DecidableEq, Repr

/-- Prism.create_bearer_token (prism.py lines 383-412): one token-exchange
POST is performed (`exch` is its outcome: the access_token on a 200 response,
none otherwise); on success the credential is cached with the current time,
on failure the cache is nulled.  The pair gives the new cache and the number
of exchange requests issued (always 1). -/
def create_bearer_token (exch : Option String) (now : Nat) : Option AuthCred × Nat :=
  match exch with
  | some tok => (some { token := tok, ts := now }, 1)
  | none => (none, 1)

/-- Prism.get_bearer_token (prism.py lines 414-430): refresh when the cache is
empty or the credential is older than 900 seconds, then return the cached
token, or the empty string when the cache is still empty.  Returns the token,
the post-state of the cache, and the number of exchange requests issued. -/
def get_bearer_token (exch : Option String) (now : Nat) (cred : Option AuthCred) :
    String × Option AuthCred × Nat :=
  let refreshed : Option AuthCred × Nat :=
    match cred with
    | none => create_bearer_token exch now
    | some c => if now - c.ts > 900 then create_bearer_token exch now else (some c, 0)
  match refreshed with
  | (none, n) => ("", none, n)
  | (some c, n) => (c.token, some c, n)

end Prism

/-- A listable resource as the client-side filters see it: the attributes
read are name and displayName. -/
structure Resource where
  name : String
  displayName : String
deriving DecidableEq, Repr

/-- The parsed JSON of one list-endpoint page: a total attribute and a data
array. -/
structure Page where
  total : Nat
  data : List Resource
deriving DecidableEq, Repr

/-- One page response: HTTP status plus parsed JSON body. -/
structure PageResp where
  status : Nat
  page : Page
deriving DecidableEq, Repr

/-- The query parameters of one GET /tables request (prism.py lines 506-510):
limit, offset, type, and the optional server-side name filter. -/
structure ListParams where
  limit : Nat
  offset : Nat
  qtype : String
  qname : Option String
deriving DecidableEq, Repr

/-- How the tables_get loop exits: the early `return tables` of the
exact-name path hands back the raw server page, every `break` hands back the
accumulated match list. -/
inductive LoopExit where
  | brk (acc : List Resource)
  | raw (page : Page)
deriving DecidableEq, Repr

/-- What tables_get returns on the non-id paths: the raw server page
(exact-name early return) or the merged collection dict with its total. -/
inductive TablesOut where
  | raw (page : Page)
  | coll (total : Nat) (data : List Resource)
deriving DecidableEq, Repr

namespace Prism

/-- The client-side substring match of tables_get (prism.py lines 550-551):
case-insensitive containment against name and displayName. -/
def tablesMatch (nm : String) (tab : Resource) : Bool :=
  subStr (pyLower nm) (pyLower tab.name) || subStr (pyLower nm) (pyLower tab.displayName)

/-- The `while True:` loop of tables_get (prism.py lines 529-568), with the
request trace.  `srv` is the server oracle; a full page with search on
advances the offset by the limit and recurses; exhausted fuel means the loop
was still running. -/
def tables_get_loop (srv : ListParams → PageResp) (search : Bool) (nm : Option String) :
    Nat → ListParams → List Resource → Option (LoopExit × List ListParams)
  | 0, _, _ => none
  | fuel + 1, params, acc =>
    let r := srv params
    if r.status ≠ 200 then some (.brk acc, [params])
    else if ¬ search ∧ nm.isSome then some (.raw r.page, [params])
    else
      let matched :=
        match nm with
        | some n => r.page.data.filter (tablesMatch n)
        | none => r.page.data
      let acc2 := acc ++ matched
      if r.page.data.length < params.limit then some (.brk acc2, [params])
      else if search then
        match tables_get_loop srv search nm fuel
            { params with offset := params.offset + params.limit } acc2 with
        | none => none
        | some (ex, reqs) => some (ex, params :: reqs)
      else some (.brk acc2, [params])

/-- The output-type normalization of tables_get (prism.py lines 478-482). -/
def tablesOutputType (ty : Option String) : String :=
  match ty with
  | none => "summary"
  | some t =>
    if pyLower t = "full" ∨ pyLower t = "summary" ∨ pyLower t = "permissions"
    then pyLower t else "summary"

/-- Prism.tables_get (prism.py lines 440-572) on the non-id paths (id=None),
parameterized by the server oracle and fuel.  Returns the result together
with the trace of issued requests.  Parameter staging follows lines 506-526:
the params dict starts from the caller's limit and offset, an exact name (no
search) overrides limit to 1 and offset to 0 and adds the server-side name
filter, and a missing caller limit then forces search on with limit 100 and
offset 0. -/
def tables_get (srv : ListParams → PageResp) (nm : Option String)
    (limit offset : Option Nat) (ty : Option String) (search : Bool) (fuel : Nat) :
    Option (TablesOut × List ListParams) :=
  let params0 : ListParams :=
    { limit := limit.getD 100, offset := offset.getD 0,
      qtype := tablesOutputType ty, qname := none }
  let params1 :=
    if ¬ search ∧ nm.isSome then
      { params0 with qname := nm.map pyCleanName, limit := 1, offset := 0 }
    else params0
  let staged :=
    if limit = none then ({ params1 with limit := 100, offset := 0 }, true)
    else (params1, search)
  (tables_get_loop srv staged.2 nm fuel staged.1 []).map (fun res =>
    match res with
    | (.brk acc, reqs) => (.coll acc.length acc, reqs)
    | (.raw p, reqs) => (.raw p, reqs))

/-- The query parameters of one GET /dataChanges request, as composed into
the URL at prism.py line 1108. -/
structure DcParams where
  qtype : String
  limit : Nat
  offset : Nat
  qname : String
deriving DecidableEq, Repr

/-- The search filter of dataChanges_get (prism.py lines 1121-1123):
case-sensitive `find(...) != -1` against name and displayName. -/
def dcMatch (nm : String) (d : Resource) : Bool :=
  subStr nm d.name || subStr nm d.displayName

/-- The `while True:` loop of dataChanges_get (prism.py lines 1107-1134).
`params` is the request actually issued: the code never updates search_offset
inside the loop — line 1134 executes `offset += search_limit` on the caller's
offset argument instead, so every iteration issues the same request, and when
that argument is None the += raises TypeError. -/
def dataChanges_loop (srv : DcParams → PageResp) (searching : Bool) (nm : String)
    (params : DcParams) :
    Nat → Option Nat → List Resource → Except String (Option (List Resource))
  | 0, _, _ => .ok none
  | fuel + 1, pyOffset, acc =>
    let r := srv params
    if r.status ≠ 200 then .ok (some acc)
    else if searching then
      let acc2 := acc ++ r.page.data.filter (dcMatch nm)
      if r.page.data.length < params.limit then .ok (some acc2)
      else
        match pyOffset with
        | none => .error "TypeError: unsupported operand types for +=: NoneType and int"
        | some o => dataChanges_loop srv searching nm params fuel (some (o + params.limit)) acc2
    else .ok (some (acc ++ r.page.data))

/-- Prism.dataChanges_get (prism.py lines 1040-1138) on the list path
(id=None).  Parameter staging follows lines 1073-1099; the loop then issues
requests with the staged limit and offset.  The result is the data_changes
dict: total (set to len(data) after the loop) and data. -/
def dataChanges_get (srv : DcParams → PageResp) (nm : Option String)
    (limit offset : Option Nat) (ty : Option String) (search : Bool) (fuel : Nat) :
    Except String (Option (Nat × List Resource)) :=
  let output_type :=
    match ty with
    | none => "summary"
    | some t => if pyLower t = "summary" ∨ pyLower t = "full" then pyLower t else "summary"
  let search_limit0 := match limit with | some l => if l > 0 then l else 500 | none => 500
  let search_offset0 := match offset with | some o => if o > 0 then o else 0 | none => 0
  let staged :=
    match nm with
    | some n =>
      if n.length > 0 then
        if search then (true, "", 500, 0)
        else (false, n, 1, 0)
      else (false, "", search_limit0, search_offset0)
    | none => (false, "", search_limit0, search_offset0)
  let params : DcParams :=
    { qtype := output_type, limit := staged.2.2.1, offset := staged.2.2.2,
      qname := staged.2.1 }
  (dataChanges_loop srv staged.1 (nm.getD "") params fuel offset []).map
    (Option.map (fun acc => (acc.length, acc)))

/-- One WQL /data page response: rows are opaque values. -/
structure WqlResp where
  status : Nat
  data : List Nat
deriving DecidableEq, Repr

/-- The `while True:` loop of wql_data (prism.py lines 1580-1593).  On a
non-200 response the function returns the accumulated dict immediately —
before the `data["total"] = len(...)` fix-up at line 1596 — so the early
return carries the initial total of 0. -/
def wql_loop (srv : Nat → Nat → WqlResp) (query_limit : Nat) :
    Nat → Nat → List Nat → Option (Nat × List Nat)
  | 0, _, _ => none
  | fuel + 1, ofs, acc =>
    let r := srv query_limit ofs
    if r.status = 200 then
      let acc2 := acc ++ r.data
      if r.data.length < query_limit then some (acc2.length, acc2)
      else wql_loop srv query_limit fuel (ofs + query_limit) acc2
    else some (0, acc)

/-- Prism.wql_data (prism.py lines 1546-1598), parameterized by the server
oracle (taking the limit and offset of the request).  Lines 1569-1575: a
missing or too-large limit forces limit 10000 and offset 0; a missing offset
becomes 0. -/
def wql_data (srv : Nat → Nat → WqlResp) (limit offset : Option Nat) (fuel : Nat) :
    Option (Nat × List Nat) :=
  let staged :=
    match limit with
    | none => (10000, some 0)
    | some l => if l > 10000 then (10000, some 0) else (l, offset)
  wql_loop srv staged.1 fuel (staged.2.getD 0) []

/-- The method names defined on the Prism class (prism.py lines 207-1641). -/
def prismMethods : List String :=
  ["http_get", "http_post", "http_patch", "http_put",
   "create_bearer_token", "get_bearer_token", "reset_bearer_token",
   "tables_get", "tables_post", "tables_put", "tables_patch",
   "buckets_get", "buckets_create", "buckets_complete", "buckets_files",
   "buckets_errorFile",
   "dataChanges_get", "dataChanges_activities_get", "dataChanges_activities_post",
   "dataChanges_is_valid", "dataChanges_validate",
   "dataExport_get",
   "fileContainers_create", "fileContainers_get", "fileContainers_load",
   "wql_dataSources", "wql_dataSources_fields", "wql_data",
   "raas_run"]

/-- Python attribute lookup `p.<m>` on a Prism instance: an AttributeError
when the class defines no such method. -/
def pyGetMethod (m : String) : Except String String :=
  if m ∈ prismMethods then .ok m
  else .error ("AttributeError: Prism object has no attribute " ++ m)

/-- Prism.buckets_complete (prism.py lines 924-948): composes the finalize
URL and POSTs it unconditionally — the bucket state is never inspected.
Returns the parsed body on a 201 (else none) together with the request
trace. -/
def buckets_complete (srv : String → NetResp) (id : String) :
    Option String × List String :=
  let url := "/buckets/" ++ id ++ "/complete"
  let r := srv url
  (if r.status = 201 then some r.body else none, [url])

end Prism

/-- The bucket record as the CLI complete command reads it: its id and
`bucket["state"]["descriptor"]`. -/
structure BucketInfo where
  id : String
  state : String
deriving DecidableEq, Repr

/-- The observable outcomes of the CLI complete command. -/
inductive CliOutcome where
  | usageExit
  | notFoundExit
  | stateExit (state : String)
  | completed (out : Option String)
deriving DecidableEq, Repr

namespace Commands

/-- The CLI complete command (buckets_commands.py lines 142-178).  Both
lookup branches start with `p.buckets_list(...)` (lines 161 and 164), an
attribute lookup on the Prism instance, whose class defines no buckets_list
method; the lines that follow — the state check at lines 172-176 and the
finalize call at line 178, written out here against `bucketOf`, the bucket
the lookup would return — are therefore unreachable.  Returns the outcome,
or the raised exception, together with the finalize-request trace. -/
def buckets_complete (srv : String → NetResp) (bucketOf : String → BucketInfo)
    (nameArg idArg : Option String) : Except String (CliOutcome × List String) :=
  if idArg = none ∧ nameArg = none then .ok (.usageExit, [])
  else do
    let _m ← Prism.pyGetMethod "buckets_list"
    let bucket := bucketOf (idArg.getD (nameArg.getD ""))
    if bucket.state ≠ "New" then .ok (.stateExit bucket.state, [])
    else
      let r := Prism.buckets_complete srv bucket.id
      .ok (.completed r.1, r.2)

end Commands

/-! Projections used to state properties of transformation results. -/

/-- Names of the bucket-schema fields in a table_to_bucket_schema result. -/
def bucketNames (r : Except String (Option (Schema × Schema))) :
    Except String (Option (List String)) :=
  r.map (Option.map (fun pr => (pr.1.fields.getD []).map Field.name))

/-- Names of the bucket-schema fields in a buckets_create_schema result. -/
def createdNames (r : Except String (Option Schema × Schema)) :
    Except String (Option (List String)) :=
  r.map (fun pr => pr.1.map (fun b => (b.fields.getD []).map Field.name))

/-- Ordinals of the bucket-schema fields in a buckets_create_schema result. -/
def createdOrdinals (r : Except String (Option Schema × Schema)) :
    Except String (Option (List (Option Nat))) :=
  r.map (fun pr => pr.1.map (fun b => (b.fields.getD []).map Field.ordinal))

/-- Operation-key flags of the bucket-schema fields in a
buckets_create_schema result. -/
def createdOpKeys (r : Except String (Option Schema × Schema)) :
    Except String (Option (List (Option Bool))) :=
  r.map (fun pr => pr.1.map (fun b => (b.fields.getD []).map Field.useAsOperationKey))

/-- Number of resources in a tables_get result. -/
def tablesOutSize : TablesOut → Nat
  | .raw p => p.data.length
  | .coll _ d => d.length

/-- The single request issued by the exact-name path of tables_get when the
caller also supplies a limit. -/
def exactNameParams (nm : String) (ty : Option String) : ListParams :=
  { limit := 1, offset := 0, qtype := Prism.tablesOutputType ty,
    qname := some (pyCleanName nm) }

/-! Concrete fixtures for counterexamples and witnesses. -/

/-- WQL server: a full first page of two rows, then a 500. -/
def wqlSrv1 : Nat → Nat → Prism.WqlResp :=
  fun _l o => if o = 0 then { status := 200, data := [1, 2] } else { status := 500, data := [] }

/-- Tables server: always one matching table (a short page). -/
def tbl6srv : ListParams → PageResp :=
  fun _ => { status := 200, page := { total := 1, data := [{ name := "x", displayName := "X" }] } }

/-- Tables server honoring the requested limit: empty page on limit 0, one
table otherwise. -/
def tbl6honest : ListParams → PageResp :=
  fun p => { status := 200,
             page := { total := 1,
                       data := if p.limit = 0 then [] else [{ name := "x", displayName := "X" }] } }

/-- Data-change server: every page is full (exactly the requested limit). -/
def dcSrvFull : Prism.DcParams → PageResp :=
  fun p => { status := 200,
             page := { total := 1000, data := List.replicate p.limit { name := "x1", displayName := "d" } } }

/-- The request that the dataChanges_get search loop issues on every
iteration (name search forces limit 500, offset 0). -/
def dcFullParams : Prism.DcParams :=
  { qtype := "summary", limit := 500, offset := 0, qname := "" }

/-- A table with a field whose name contains WPA without the WPA_ prefix. -/
def t5cx : Schema :=
  { id := some "t1",
    fields := some [
      { name := "aWPAb", externalId := some false },
      { name := "plain", externalId := some true }] }

/-- A three-field table whose first field contains WPA mid-name: schema_fixup
keeps it (no WPA_ prefix) and numbers it, table_to_bucket_schema then drops
it, leaving an ordinal gap. -/
def t7cx : Schema :=
  { id := some "t1",
    fields := some [
      { name := "xWPAy", externalId := some false },
      { name := "fa", externalId := some true },
      { name := "fb", externalId := some false }] }

/-- The end-to-end scenario table of the spec: WPA_row, emp_id, name. -/
def t7s : Schema :=
  { id := some "t1",
    fields := some [
      { name := "WPA_row" },
      { name := "emp_id", externalId := some true },
      { name := "name", externalId := some false }] }

/-- A one-field table whose load-schema transformation succeeds. -/
def t8cx : Schema :=
  { id := some "t8", fields := some [{ name := "emp", externalId := some true }] }

/-- A schema with an audit field, a stale ordinal, per-field identity
attributes, and a non-whitelisted top-level key. -/
def s10w : Schema :=
  { id := some "tid",
    name := some "nm",
    fields := some [
      { name := "WPA_z" },
      { name := "fa", externalId := some true, ordinal := some 9, id := some "fid" }],
    parseOptions := some defaultParseOptions,
    schemaVersion := some "v",
    otherKeys := ["k"] }

/-- The bucket schema table_to_bucket_schema builds from t5cx. -/
def b5post : Schema :=
  { schemaVersion := some "Schema_Version=1.0",
    parseOptions := some defaultParseOptions,
    fields := some [{ name := "plain", useAsOperationKey := some true }] }

/-- The post-state of t5cx after table_to_bucket_schema. -/
def t5post : Schema :=
  { id := some "t1",
    fields := some [{ name := "plain", useAsOperationKey := some true }] }

/-- The bucket schema table_to_bucket_schema builds from t8cx. -/
def b8post : Schema :=
  { schemaVersion := some "Schema_Version=1.0",
    parseOptions := some defaultParseOptions,
    fields := some [{ name := "emp", useAsOperationKey := some true }] }

/-- The post-state of t8cx after table_to_bucket_schema. -/
def t8post : Schema :=
  { id := some "t8", fields := some [{ name := "emp", useAsOperationKey := some true }] }

/-- The post-state of s10w after schema_fixup. -/
def s10post : Schema :=
  { id := some "tid", name := some "nm",
    fields := some [{ name := "fa", externalId := some true, ordinal := some 1,
                      id := some "fid" }] }

/-- The bucket-schema payload buckets_create_schema builds from s10w. -/
def b10post : Schema :=
  { schemaVersion := some "Schema_Version=1.0",
    parseOptions := some defaultParseOptions,
    fields := some [{ name := "fa", ordinal := some 1, useAsOperationKey := some true }] }

/-- The post-state of the caller's s10w dict after buckets_create_schema. -/
def s10c : Schema :=
  { id := some "tid", name := some "nm",
    fields := some [{ name := "fa", ordinal := some 1, useAsOperationKey := some true }] }

/-- The bucket-schema payload buckets_create_schema builds from t7s. -/
def b7post : Schema :=
  { schemaVersion := some "Schema_Version=1.0",
    parseOptions := some defaultParseOptions,
    fields := some [
      { name := "emp_id", ordinal := some 1, useAsOperationKey := some true },
      { name := "name", ordinal := some 2, useAsOperationKey := some false }] }

/-- The post-state of the caller's t7s dict after buckets_create_schema. -/
def s7post : Schema :=
  { id := some "t1",
    fields := some [
      { name := "emp_id", ordinal := some 1, useAsOperationKey := some true },
      { name := "name", ordinal := some 2, useAsOperationKey := some false }] }

/-! Helper lemmas about the embedded operations. -/

theorem assignOrdinalsFrom_map_name (n : Nat) (l : List Field) :
    (assignOrdinalsFrom n l).map Field.name = l.map Field.name := by
  induction l generalizing n with
  | nil => rfl
  | cons f t ih => simp [assignOrdinalsFrom, ih]

theorem assignOrdinalsFrom_length (n : Nat) (l : List Field) :
    (assignOrdinalsFrom n l).length = l.length := by
  induction l generalizing n with
  | nil => rfl
  | cons f t ih => simp [assignOrdinalsFrom, ih]

theorem assignOrdinalsFrom_map_ordinal (n : Nat) (l : List Field) :
    (assignOrdinalsFrom n l).map Field.ordinal =
      (List.range l.length).map (fun i => some (n + i + 1)) := by
  induction l generalizing n with
  | nil => rfl
  | cons f t ih =>
    simp only [assignOrdinalsFrom, List.map_cons, ih, List.length_cons,
      List.range_succ_eq_map, List.map_map]
    congr 1
    apply List.map_congr_left
    intro a _
    simp only [Function.comp_apply, Option.some.injEq]
    omega

theorem assignOrdinalsFrom_idem (n : Nat) (l : List Field) :
    assignOrdinalsFrom n (assignOrdinalsFrom n l) = assignOrdinalsFrom n l := by
  induction l generalizing n with
  | nil => rfl
  | cons f t ih => simp [assignOrdinalsFrom, ih]

theorem opKeyAssign_ok_spec :
    ∀ (l l2 : List Field), opKeyAssign l = .ok l2 →
      l2.map Field.name = l.map Field.name ∧
      l2.map Field.ordinal = l.map Field.ordinal ∧
      ∀ g ∈ l2, g.useAsOperationKey.isSome = true := by
  intro l
  induction l with
  | nil =>
    intro l2 h
    simp only [opKeyAssign] at h
    cases h
    simp
  | cons f t ih =>
    intro l2 h
    simp only [opKeyAssign] at h
    cases hext : f.externalId with
    | none => rw [hext] at h; cases h
    | some b =>
      rw [hext] at h
      cases hr : opKeyAssign t with
      | error e => rw [hr] at h; cases h
      | ok r =>
        rw [hr] at h
        simp only [Except.map] at h
        cases h
        obtain ⟨h1, h2, h3⟩ := ih r hr
        refine ⟨by simp [h1], by simp [h2], ?_⟩
        intro g hg
        rcases List.mem_cons.1 hg with hg | hg
        · subst hg; rfl
        · exact h3 g hg

theorem exists_name_eq_of_map_name {l1 l2 : List Field}
    (hnm : l2.map Field.name = l1.map Field.name) {f : Field} (hf : f ∈ l2) :
    ∃ g ∈ l1, g.name = f.name := by
  have h1 : f.name ∈ l2.map Field.name := List.mem_map_of_mem _ hf
  rw [hnm] at h1
  rcases List.mem_map.1 h1 with ⟨g, hg, he⟩
  exact ⟨g, hg, he⟩

theorem schema_fixup_true_elim {s s2 : Schema} (h : schema_fixup s = (true, s2)) :
    isValidString s.id = true ∧ ∃ fl, s.fields = some fl ∧
      s2 = { id := s.id, name := s.name, displayName := s.displayName,
             description := s.description, documentation := s.documentation,
             enableForAnalysis := s.enableForAnalysis, tags := s.tags,
             fields := some (assignOrdinalsFrom 0
               (fl.filter (fun fld => ! pyStartsWith fld.name "WPA_"))) } := by
  by_cases hid : isValidString s.id = true
  · cases hfl : s.fields with
    | none =>
      unfold schema_fixup at h
      rw [hfl] at h
      simp [hid] at h
    | some fl =>
      unfold schema_fixup at h
      rw [hfl] at h
      simp only [hid, not_true_eq_false, if_false] at h
      refine ⟨hid, fl, rfl, ?_⟩
      cases h
      rfl
  · unfold schema_fixup at h
    simp [hid] at h

theorem table_to_bucket_ok_elim {t b t2 : Schema}
    (h : table_to_bucket_schema t = .ok (some (b, t2))) :
    ∃ fl fl2, t.fields = some fl ∧
      opKeyAssign (fl.filter (fun x => ! subStr "WPA" x.name)) = .ok fl2 ∧
      b = { schemaVersion := some "Schema_Version=1.0",
            parseOptions := some (t.parseOptions.getD defaultParseOptions),
            fields := some (fl2.map trimFieldAttrs) } ∧
      t2 = { t with fields := some (fl2.map trimFieldAttrs) } := by
  cases hfl : t.fields with
  | none =>
    unfold table_to_bucket_schema at h
    rw [hfl] at h
    cases h
  | some fl =>
    unfold table_to_bucket_schema at h
    rw [hfl] at h
    dsimp only at h
    cases hok : opKeyAssign (fl.filter (fun x => ! subStr "WPA" x.name)) with
    | error e => rw [hok] at h; cases h
    | ok fl2 =>
      rw [hok] at h
      simp only [Except.map, Except.ok.injEq, Option.some.injEq, Prod.mk.injEq] at h
      exact ⟨fl, fl2, rfl, hok, h.1.symm, h.2.symm⟩

theorem buckets_create_ok_elim {s : Schema} {b s2 : Schema}
    (h : Prism.buckets_create_schema s = .ok (some b, s2)) :
    ∃ s1, schema_fixup s = (true, s1) ∧ table_to_bucket_schema s1 = .ok (some (b, s2)) := by
  unfold Prism.buckets_create_schema at h
  by_cases hpre : s.id = none ∨ s.fields = none
  · simp [hpre] at h
  · simp only [hpre, if_false] at h
    cases hfix : schema_fixup s with
    | mk ok s1 =>
      rw [hfix] at h
      cases ok with
      | false => simp at h
      | true =>
        dsimp only at h
        cases htb : table_to_bucket_schema s1 with
        | error e => rw [htb] at h; cases h
        | ok v =>
          rw [htb] at h
          cases v with
          | none => simp [Except.map] at h
          | some pr =>
            cases pr with
            | mk b2 t2 =>
              simp only [Except.map, Except.ok.injEq, Prod.mk.injEq,
                Option.some.injEq] at h
              exact ⟨s1, rfl, by rw [htb, h.1, h.2]⟩

theorem trim_map_name (l : List Field) :
    (l.map trimFieldAttrs).map Field.name = l.map Field.name := by
  rw [List.map_map]
  exact List.map_congr_left (fun g _ => rfl)

theorem trim_map_ordinal (l : List Field) :
    (l.map trimFieldAttrs).map Field.ordinal = l.map Field.ordinal := by
  rw [List.map_map]
  exact List.map_congr_left (fun g _ => rfl)

theorem table_to_bucket_fields_spec {t b t2 : Schema}
    (h : table_to_bucket_schema t = .ok (some (b, t2))) :
    t2.fields = b.fields ∧
    (b.fields.getD []).map Field.name =
      ((t.fields.getD []).filter (fun x => ! subStr "WPA" x.name)).map Field.name ∧
    (b.fields.getD []).map Field.ordinal =
      ((t.fields.getD []).filter (fun x => ! subStr "WPA" x.name)).map Field.ordinal ∧
    ∀ f ∈ b.fields.getD [], f.id = none ∧ f.displayName = none ∧ f.fieldId = none ∧
      f.required = none ∧ f.externalId = none ∧ f.useAsOperationKey.isSome = true := by
  obtain ⟨fl, fl2, hfl, hok, hb, ht2⟩ := table_to_bucket_ok_elim h
  obtain ⟨hn, ho, hk⟩ := opKeyAssign_ok_spec _ _ hok
  subst hb
  subst ht2
  refine ⟨rfl, ?_, ?_, ?_⟩
  · simp only [hfl, Option.getD_some]
    rw [trim_map_name, hn]
  · simp only [hfl, Option.getD_some]
    rw [trim_map_ordinal, ho]
  · intro f hf
    simp only [Option.getD_some] at hf
    rcases List.mem_map.1 hf with ⟨g, hg, he⟩
    subst he
    exact ⟨rfl, rfl, rfl, rfl, rfl, hk g hg⟩

theorem table_to_bucket_fields_noWPA {t b t2 : Schema}
    (h : table_to_bucket_schema t = .ok (some (b, t2))) :
    ∀ f ∈ b.fields.getD [], subStr "WPA" f.name = false := by
  intro f hf
  obtain ⟨-, hn, -, -⟩ := table_to_bucket_fields_spec h
  rcases exists_name_eq_of_map_name hn hf with ⟨g, hg, he⟩
  rcases List.mem_filter.1 hg with ⟨-, hp⟩
  rw [← he]
  simpa using hp

theorem schema_fixup_fields_spec {s s2 : Schema} (h : schema_fixup s = (true, s2)) :
    (s2.fields.getD []).map Field.name =
      ((s.fields.getD []).filter (fun fld => ! pyStartsWith fld.name "WPA_")).map Field.name ∧
    (s2.fields.getD []).map Field.ordinal =
      (List.range (s2.fields.getD []).length).map (fun i => some (i + 1)) ∧
    s2.parseOptions = none ∧ s2.schemaVersion = none ∧ s2.otherKeys = [] := by
  obtain ⟨hid, fl, hfl, hs2⟩ := schema_fixup_true_elim h
  subst hs2
  refine ⟨?_, ?_, rfl, rfl, rfl⟩
  · simp only [hfl, Option.getD_some]
    exact assignOrdinalsFrom_map_name 0 _
  · simp only [Option.getD_some]
    rw [assignOrdinalsFrom_map_ordinal, assignOrdinalsFrom_length]
    exact List.map_congr_left (fun a _ => by simp)

theorem schema_fixup_fields_noPre {s s2 : Schema} (h : schema_fixup s = (true, s2)) :
    ∀ f ∈ s2.fields.getD [], pyStartsWith f.name "WPA_" = false := by
  intro f hf
  obtain ⟨hn, -, -⟩ := schema_fixup_fields_spec h
  rcases exists_name_eq_of_map_name hn hf with ⟨g, hg, he⟩
  rcases List.mem_filter.1 hg with ⟨-, hp⟩
  rw [← he]
  simpa using hp

/-! Claim theorems. -/

/-- C5 counterexample: the field named aWPAb does not start with the prefix
WPA_, yet table_to_bucket_schema excludes it from the outbound bucket schema
of t5cx (only plain survives), so exclusion is not "name starts with WPA_". -/
theorem c5_counterexample :
    bucketNames (table_to_bucket_schema t5cx) = .ok (some ["plain"]) ∧
    pyStartsWith "aWPAb" "WPA_" = false ∧
    "aWPAb" ∈ (t5cx.fields.getD []).map Field.name := by
  refine ⟨by rfl, by decide, by decide⟩

/-- C5 amended: table_to_bucket_schema removes exactly the fields whose name
contains the substring WPA (so the outbound field names are those of the
contains-filter), while schema_fixup removes exactly the fields whose name
starts with WPA_; every other field is retained. -/
theorem c5_amended_filter_exact :
    (∀ (t b t2 : Schema), table_to_bucket_schema t = .ok (some (b, t2)) →
      (b.fields.getD []).map Field.name =
        ((t.fields.getD []).filter (fun x => ! subStr "WPA" x.name)).map Field.name) ∧
    (∀ (s s2 : Schema), schema_fixup s = (true, s2) →
      (s2.fields.getD []).map Field.name =
        ((s.fields.getD []).filter (fun fld => ! pyStartsWith fld.name "WPA_")).map Field.name) := by
  constructor
  · intro t b t2 h
    exact (table_to_bucket_fields_spec h).2.1
  · intro s s2 h
    exact (schema_fixup_fields_spec h).1

/-- Witness for C5: the amended statement evaluated on the concrete t5cx. -/
theorem c5_amended_filter_exact_witness :
    (b5post.fields.getD []).map Field.name =
      ((t5cx.fields.getD []).filter (fun x => ! subStr "WPA" x.name)).map Field.name :=
  c5_amended_filter_exact.1 t5cx b5post t5post (by rfl)

/-- C8 counterexample: table_to_bucket_schema succeeds on t8cx (producing the
field emp), but applying it a second time to its own output raises KeyError
on externalId instead of succeeding with the same field set. -/
theorem c8_counterexample :
    table_to_bucket_twice t8cx = .error "KeyError: externalId" ∧
    bucketNames (table_to_bucket_schema t8cx) = .ok (some ["emp"]) := by
  exact ⟨by rfl, by rfl⟩

/-- C8 amended: idempotence holds for schema_fixup (a second application to
its own successful output succeeds and returns the very same schema, hence
the same field set and ordinals), while table_to_bucket_schema applied to its
own output fails with KeyError whenever that output has any field at all,
because the first application stripped every externalId attribute. -/
theorem c8_amended_idempotence :
    (∀ (s s2 : Schema), schema_fixup s = (true, s2) → schema_fixup s2 = (true, s2)) ∧
    (∀ (t b t2 : Schema), table_to_bucket_schema t = .ok (some (b, t2)) →
      b.fields.getD [] ≠ [] →
      table_to_bucket_schema b = .error "KeyError: externalId") := by
  constructor
  · intro s s2 h
    obtain ⟨hid, fl, hfl, hs2⟩ := schema_fixup_true_elim h
    have hpre := schema_fixup_fields_noPre h
    rw [hs2] at hpre
    simp only [Option.getD_some] at hpre
    have hfe : (assignOrdinalsFrom 0 (fl.filter (fun fld => ! pyStartsWith fld.name "WPA_"))).filter
        (fun fld => ! pyStartsWith fld.name "WPA_") =
        assignOrdinalsFrom 0 (fl.filter (fun fld => ! pyStartsWith fld.name "WPA_")) :=
      List.filter_eq_self.2 (fun f hf => by simp [hpre f hf])
    subst hs2
    unfold schema_fixup
    rw [if_neg (by simp [hid])]
    dsimp only
    rw [hfe, assignOrdinalsFrom_idem]
  · intro t b t2 h hne
    have hnowpa := table_to_bucket_fields_noWPA h
    obtain ⟨-, -, -, hattrs⟩ := table_to_bucket_fields_spec h
    obtain ⟨fl, fl2, hfl, hok, hb, ht2⟩ := table_to_bucket_ok_elim h
    have hbf : b.fields = some (fl2.map trimFieldAttrs) := by rw [hb]
    unfold table_to_bucket_schema
    rw [hbf]
    have hself : (fl2.map trimFieldAttrs).filter (fun x => ! subStr "WPA" x.name) =
        fl2.map trimFieldAttrs := by
      apply List.filter_eq_self.2
      intro f hf
      have : f ∈ b.fields.getD [] := by rw [hbf]; simpa using hf
      simp [hnowpa f this]
    simp only [hself]
    cases hl : fl2.map trimFieldAttrs with
    | nil =>
      exfalso
      apply hne
      rw [hbf, hl]
      rfl
    | cons f rest =>
      have hfmem : f ∈ b.fields.getD [] := by rw [hbf, hl]; exact List.mem_cons_self f rest
      have hext : f.externalId = none := (hattrs f hfmem).2.2.2.2.1
      simp only [opKeyAssign, hext]
      rfl

/-- Witness for C8: the amended statement evaluated on concrete inputs —
schema_fixup is idempotent at s10w and table_to_bucket_schema fails on its
own output at t8cx. -/
theorem c8_amended_idempotence_witness :
    schema_fixup s10post = (true, s10post) ∧
    table_to_bucket_schema b8post = .error "KeyError: externalId" := by
  constructor
  · exact c8_amended_idempotence.1 s10w s10post (by rfl)
  · exact c8_amended_idempotence.2 t8cx b8post t8post (by rfl) (by decide)

/-- C7 counterexample: t7cx (field xWPAy carries WPA mid-name, then fa, fb)
goes through the buckets_create pipeline; schema_fixup keeps xWPAy and
assigns ordinals 1,2,3, table_to_bucket_schema then drops it without
renumbering, so the outbound bucket schema carries ordinals 2,3 — not the
claimed gap-free 1..N. -/
theorem c7_counterexample :
    createdOrdinals (Prism.buckets_create_schema t7cx) = .ok (some [some 2, some 3]) ∧
    [some 2, some 3] ≠ (List.range 2).map (fun i => some (i + 1)) := by
  exact ⟨by rfl, by decide⟩

/-- C7 amended: ordinals are reassigned 1..N by schema_fixup, not by
table_to_bucket_schema; the composed buckets_create pipeline therefore yields
sequential ordinals 1..N exactly when the contains-WPA filter removes nothing
beyond the WPA_-prefix filter (every prefix-surviving field name must be free
of the substring WPA).  The spec's end-to-end scenario (WPA_row, emp_id,
name) satisfies this and yields two fields with ordinals 1,2 and
useAsOperationKey true,false. -/
theorem c7_amended_ordinals :
    (∀ (s b s2 : Schema), Prism.buckets_create_schema s = .ok (some b, s2) →
      (∀ f ∈ s.fields.getD [], pyStartsWith f.name "WPA_" = false →
        subStr "WPA" f.name = false) →
      (b.fields.getD []).map Field.ordinal =
        (List.range (b.fields.getD []).length).map (fun i => some (i + 1))) ∧
    (createdNames (Prism.buckets_create_schema t7s) = .ok (some ["emp_id", "name"]) ∧
     createdOrdinals (Prism.buckets_create_schema t7s) = .ok (some [some 1, some 2]) ∧
     createdOpKeys (Prism.buckets_create_schema t7s) = .ok (some [some true, some false])) := by
  constructor
  · intro s b s2 hcreate hclean
    obtain ⟨s1, hfix, htb⟩ := buckets_create_ok_elim hcreate
    obtain ⟨hn1, ho1, -, -, -⟩ := schema_fixup_fields_spec hfix
    obtain ⟨-, -, ho2, -⟩ := table_to_bucket_fields_spec htb
    have hnowpa : ∀ f ∈ s1.fields.getD [], subStr "WPA" f.name = false := by
      intro f hf
      rcases exists_name_eq_of_map_name hn1 hf with ⟨g, hg, he⟩
      rcases List.mem_filter.1 hg with ⟨hgs, hp⟩
      rw [← he]
      exact hclean g hgs (by simpa using hp)
    have hself : (s1.fields.getD []).filter (fun x => ! subStr "WPA" x.name) =
        s1.fields.getD [] :=
      List.filter_eq_self.2 (fun f hf => by simp [hnowpa f hf])
    rw [hself] at ho2
    have hlen : (b.fields.getD []).length = (s1.fields.getD []).length := by
      have := congrArg List.length ho2
      simpa using this
    rw [ho2, ho1, hlen]
  · exact ⟨by rfl, by rfl, by rfl⟩

/-- Witness for C7: the amended pipeline statement evaluated on the concrete
scenario table t7s. -/
theorem c7_amended_ordinals_witness :
    (b7post.fields.getD []).map Field.ordinal =
      (List.range (b7post.fields.getD []).length).map (fun i => some (i + 1)) :=
  c7_amended_ordinals.1 t7s b7post s7post (by rfl) (by decide)

/-- C10: schema_fixup and table_to_bucket_schema operate destructively on the
caller's schema dict.  After tables_post or tables_put the caller's object is
exactly the fixup post-state: WPA_-prefixed fields are gone, ordinals are
overwritten with 1..N, and non-whitelisted top-level keys (parseOptions,
schemaVersion, any others) are deleted.  After buckets_create the caller's
fields list is the very list sent in the bucket payload, with the per-field
attributes id, displayName, fieldId, required, externalId deleted and
useAsOperationKey added. -/
theorem c10_schema_mutation :
    (∀ (s s2 : Schema), schema_fixup s = (true, s2) →
      Prism.tables_post_schema_post s = s2 ∧ Prism.tables_put_schema_post s = s2 ∧
      (∀ f ∈ s2.fields.getD [], pyStartsWith f.name "WPA_" = false) ∧
      (s2.fields.getD []).map Field.ordinal =
        (List.range (s2.fields.getD []).length).map (fun i => some (i + 1)) ∧
      s2.parseOptions = none ∧ s2.schemaVersion = none ∧ s2.otherKeys = []) ∧
    (∀ (s b s2 : Schema), Prism.buckets_create_schema s = .ok (some b, s2) →
      s2.fields = b.fields ∧
      ∀ f ∈ s2.fields.getD [], f.id = none ∧ f.displayName = none ∧ f.fieldId = none ∧
        f.required = none ∧ f.externalId = none ∧ f.useAsOperationKey.isSome = true) := by
  constructor
  · intro s s2 h
    obtain ⟨-, ho, hpo, hsv, hok⟩ := schema_fixup_fields_spec h
    refine ⟨?_, ?_, schema_fixup_fields_noPre h, ho, hpo, hsv, hok⟩
    · unfold Prism.tables_post_schema_post
      rw [h]
    · unfold Prism.tables_put_schema_post
      rw [h]
  · intro s b s2 hcreate
    obtain ⟨s1, hfix, htb⟩ := buckets_create_ok_elim hcreate
    obtain ⟨hshare, -, -, hattrs⟩ := table_to_bucket_fields_spec htb
    refine ⟨hshare, ?_⟩
    intro f hf
    rw [hshare] at hf
    exact hattrs f hf

/-- Witness for C10: the destructive-update statement evaluated on the
concrete schema s10w. -/
theorem c10_schema_mutation_witness :
    Prism.tables_post_schema_post s10w = s10post ∧ s10c.fields = b10post.fields := by
  exact ⟨(c10_schema_mutation.1 s10w s10post (by rfl)).1,
         (c10_schema_mutation.2 s10w b10post s10c (by rfl)).1⟩

/-- C1: wql_data against a server whose first page is full (two rows at
limit 2) and whose second page answers 500 returns the accumulated partial
data with the total attribute still 0 — the early return on a non-200
response skips the final total fix-up, so total differs from len(data). -/
theorem c1_wql_total_mismatch :
    Prism.wql_data wqlSrv1 (some 2) (some 0) 5 = some (0, [1, 2]) ∧
    (0 : Nat) ≠ [1, 2].length := by
  exact ⟨by rfl, by decide⟩

/-- C2: every http verb method raises AttributeError on a missing URL — the
missing-URL branch binds `response` to a plain dict, and the status check
that follows reads `response.status_code`, an attribute a dict does not
have — instead of returning the synthetic status-600 response. -/
theorem c2_http_missing_url_raises :
    (∀ net : String → NetResp, Prism.http_get net .pyNone =
      .error "AttributeError: dict object has no attribute status_code") ∧
    (∀ net : String → NetResp, Prism.http_get net (.pyStr "") =
      .error "AttributeError: dict object has no attribute status_code") ∧
    (∀ net : String → NetResp, Prism.http_post net .pyNone =
      .error "AttributeError: dict object has no attribute status_code") ∧
    (∀ net : String → NetResp, Prism.http_patch net .pyNone =
      .error "AttributeError: dict object has no attribute status_code") ∧
    (∀ net : String → NetResp, Prism.http_put net .pyNone =
      .error "AttributeError: dict object has no attribute status_code") := by
  exact ⟨fun _ => rfl, fun _ => rfl, fun _ => rfl, fun _ => rfl, fun _ => rfl⟩

/-- C3: no precondition protects the finalize POST.  Prism.buckets_complete
issues the POST for every bucket id, whatever the bucket's state — its
request trace is always the finalize request — and the CLI complete command,
which does contain the state check, raises AttributeError on every invocation
before reaching it, because it first calls p.buckets_list, a method the Prism
class does not define. -/
theorem c3_complete_no_state_check :
    (∀ (srv : String → NetResp) (id : String),
      (Prism.buckets_complete srv id).2 = ["/buckets/" ++ id ++ "/complete"]) ∧
    (∀ (srv : String → NetResp) (bucketOf : String → BucketInfo)
        (nm : Option String) (i : String),
      Commands.buckets_complete srv bucketOf nm (some i) =
        .error "AttributeError: Prism object has no attribute buckets_list") := by
  constructor
  · intro srv id
    rfl
  · intro srv bucketOf nm i
    rfl

/-- Helper for C4: against the always-full-page server, the dataChanges_get
search loop recurses forever — the request parameters (and in particular the
offset) never change, so no fuel suffices to finish. -/
theorem dcLoopFull_hangs :
    ∀ (fuel po : Nat) (acc : List Resource),
      Prism.dataChanges_loop dcSrvFull true "zz" dcFullParams fuel (some po) acc =
        .ok none := by
  intro fuel
  induction fuel with
  | zero => intro po acc; rfl
  | succ f ih =>
    intro po acc
    show Prism.dataChanges_loop dcSrvFull true "zz" dcFullParams f
        (some (po + 500))
        (acc ++ (List.replicate 500 { name := "x1", displayName := "d" }).filter
          (Prism.dcMatch "zz")) = .ok none
    exact ih _ _

/-- C4: the dataChanges_get pagination never advances.  With the default
offset of None, the first full page makes `offset += search_limit` raise
TypeError; with an integer offset, every iteration issues the identical
request (the URL uses search_offset, which the loop never updates), so the
search never terminates — for every fuel the loop is still running. -/
theorem c4_dataChanges_offset_stuck :
    Prism.dataChanges_get dcSrvFull (some "zz") none none none true 5 =
      .error "TypeError: unsupported operand types for +=: NoneType and int" ∧
    (∀ (fuel o : Nat),
      Prism.dataChanges_get dcSrvFull (some "zz") none (some (o + 1)) none true fuel =
        .ok none) := by
  constructor
  · rfl
  · intro fuel o
    show (Prism.dataChanges_loop dcSrvFull true "zz" dcFullParams fuel (some (o + 1)) []).map
        (Option.map (fun acc => (acc.length, acc))) = .ok none
    rw [dcLoopFull_hangs]
    rfl

/-- C6 counterexample: with a name, substring search disabled, and no caller
limit (the default), tables_get does not issue a limit=1 request: the missing
limit forces search on, and the single request issued carries limit=100. -/
theorem c6_counterexample :
    Prism.tables_get tbl6srv (some "x") none none (some "summary") false 3 =
      some (.coll 1 [{ name := "x", displayName := "X" }],
        [{ limit := 100, offset := 0, qtype := "summary", qname := some "x" }]) := by
  rfl

/-- C6 amended: when the caller supplies a limit together with the name and
substring search disabled, tables_get issues exactly one request — limit 1,
offset 0, server-side exact-name filter — whatever limit and offset the
caller gave, returns the server's yield, and the result holds at most one
member for any server honoring the requested limit.  (With no caller limit,
search is forced on and the request instead carries limit 100.) -/
theorem c6_amended_exact_lookup :
    ∀ (srv : ListParams → PageResp) (nm : String) (l : Nat) (o : Option Nat)
      (ty : Option String) (f : Nat),
      (∀ p : ListParams, ((srv p).page.data).length ≤ p.limit) →
      (Prism.tables_get srv (some nm) (some l) o ty false (f + 1)).map Prod.snd =
        some [exactNameParams nm ty] ∧
      (∀ out reqs, Prism.tables_get srv (some nm) (some l) o ty false (f + 1) =
        some (out, reqs) → tablesOutSize out ≤ 1) := by
  intro srv nm l o ty f honest
  have hrw : Prism.tables_get srv (some nm) (some l) o ty false (f + 1) =
      (Prism.tables_get_loop srv false (some nm) (f + 1) (exactNameParams nm ty) []).map
        (fun res => match res with
          | (.brk acc, reqs) => (.coll acc.length acc, reqs)
          | (.raw p, reqs) => (.raw p, reqs)) := rfl
  have hstep : Prism.tables_get_loop srv false (some nm) (f + 1) (exactNameParams nm ty) [] =
      if (srv (exactNameParams nm ty)).status ≠ 200
      then some (.brk [], [exactNameParams nm ty])
      else some (.raw (srv (exactNameParams nm ty)).page, [exactNameParams nm ty]) := by
    by_cases h : (srv (exactNameParams nm ty)).status = 200
    · simp [Prism.tables_get_loop, h]
    · simp [Prism.tables_get_loop, h]
  rw [hrw, hstep]
  constructor
  · split
    · rfl
    · rfl
  · intro out reqs heq
    split at heq
    · cases heq
      simp [tablesOutSize]
    · cases heq
      have := honest (exactNameParams nm ty)
      simpa [tablesOutSize, exactNameParams] using this

/-- Witness for C6: the amended statement evaluated against the concrete
limit-honoring server tbl6honest. -/
theorem c6_amended_exact_lookup_witness :
    (Prism.tables_get tbl6honest (some "x") (some 10) (some 4) (some "summary") false 3).map
        Prod.snd = some [exactNameParams "x" (some "summary")] := by
  have hh : ∀ p : ListParams, ((tbl6honest p).page.data).length ≤ p.limit := by
    intro p
    by_cases h : p.limit = 0
    · simp [tbl6honest, h]
    · simp only [tbl6honest, h, if_false, List.length_cons, List.length_nil]
      omega
  exact (c6_amended_exact_lookup tbl6honest "x" 10 (some 4) (some "summary") 2 hh).1

/-- C9: two get_bearer_token calls within 900 seconds of the cached
credential's issuance both return the cached token unchanged and perform no
token exchange (so at most one exchange across the two calls, counting the
one that issued the credential); and a credential older than 900 seconds is
replaced before use — the call performs exactly one exchange and the
resulting cache is the fresh exchange outcome, not the stale credential. -/
theorem c9_token_reuse :
    (∀ (e1 e2 : Option String) (tok : String) (t0 n1 n2 : Nat),
      n1 - t0 ≤ 900 → n2 - t0 ≤ 900 →
      Prism.get_bearer_token e1 n1 (some ⟨tok, t0⟩) = (tok, some ⟨tok, t0⟩, 0) ∧
      Prism.get_bearer_token e2 n2
          (Prism.get_bearer_token e1 n1 (some ⟨tok, t0⟩)).2.1 = (tok, some ⟨tok, t0⟩, 0)) ∧
    (∀ (e : Option String) (c : Prism.AuthCred) (now : Nat), now - c.ts > 900 →
      (Prism.get_bearer_token e now (some c)).2.2 = 1 ∧
      (Prism.get_bearer_token e now (some c)).2.1 = (Prism.create_bearer_token e now).1) := by
  constructor
  · intro e1 e2 tok t0 n1 n2 h1 h2
    have g1 : Prism.get_bearer_token e1 n1 (some ⟨tok, t0⟩) = (tok, some ⟨tok, t0⟩, 0) := by
      unfold Prism.get_bearer_token
      dsimp only
      rw [if_neg (by omega)]
    have g2 : Prism.get_bearer_token e2 n2 (some ⟨tok, t0⟩) = (tok, some ⟨tok, t0⟩, 0) := by
      unfold Prism.get_bearer_token
      dsimp only
      rw [if_neg (by omega)]
    exact ⟨g1, by rw [g1]; exact g2⟩
  · intro e c now h
    cases e with
    | none =>
      unfold Prism.get_bearer_token
      dsimp only
      rw [if_pos (by omega)]
      exact ⟨rfl, rfl⟩
    | some t =>
      unfold Prism.get_bearer_token
      dsimp only
      rw [if_pos (by omega)]
      exact ⟨rfl, rfl⟩

/-- Witness for C9: the reuse and expiry statements evaluated on concrete
credentials and times. -/
theorem c9_token_reuse_witness :
    Prism.get_bearer_token none 100 (some ⟨"t", 0⟩) = ("t", some ⟨"t", 0⟩, 0) ∧
    (Prism.get_bearer_token (some "new") 1000 (some ⟨"old", 0⟩)).2.2 = 1 := by
  exact ⟨(c9_token_reuse.1 none none "t" 0 100 100 (by decide) (by decide)).1,
         (c9_token_reuse.2 (some "new") ⟨"old", 0⟩ 1000 (by decide)).1⟩

end PrismPy
